import Mathlib

/-!
Verification of the RISC-V shared intrinsics module
(`crates/core_arch/src/riscv_shared/mod.rs`).

Each Rust function in that module issues exactly one machine instruction via
an inline-assembly statement with declared side-effect exclusions (`nomem`,
`nostack`, `readonly`) and explicit operand bindings.  The embedding below
transcribes, for every function, the instruction form it issues (raw `.insn`
line or assembler mnemonic), the register operands it binds (either the
hardwired-zero register `x0` written literally in the template, or a general
register carrying a supplied input value, or an output register), and the
declared option set.  A separate, clearly marked layer models the hardware
semantics of the issued instructions (fcsr field reads/swaps, guest-memory
loads and stores), since the hardware executing them is outside the module.
-/

namespace RiscvShared

/-- A register operand slot of an issued instruction: the hardwired-zero
register `x0` written literally in the assembly template, an input register
bound with `in(reg)` carrying the supplied value, or an output register bound
with `out(reg)`. -/
inductive RegOperand where
  | x0 : RegOperand
  | inReg (value : Int) : RegOperand
  | outReg : RegOperand
deriving DecidableEq

/-- Assembler mnemonics used by the module for instructions a generic
assembler does recognize. -/
inductive Mnemonic where
  | nop
  | wfi
  | fence_i
  | sfence_vma
  | frcsr
  | fscsr
  | frrm
  | fsrm
  | frflags
  | fsflags
deriving DecidableEq

/-- One instruction of an assembly template: a raw I-type `.insn i opcode,
funct3, rd, rs1, imm` line, a raw R-type `.insn r opcode, funct3, funct7,
rd, rs1, rs2` line, or a mnemonic with its operand list in template order. -/
inductive Instr where
  | insnI (opcode funct3 : Nat) (rd rs1 : RegOperand) (imm : Nat) : Instr
  | insnR (opcode funct3 funct7 : Nat) (rd rs1 rs2 : RegOperand) : Instr
  | mnem (m : Mnemonic) (ops : List RegOperand) : Instr
deriving DecidableEq

/-- The side-effect exclusions declared in an `asm!` options list.  Fields in
order: `nomem`, `nostack`, `readonly`. -/
structure AsmOptions where
  nomem : Bool
  nostack : Bool
  readonly : Bool
deriving DecidableEq

/-- One `asm!` statement: the list of template instructions (every statement
in this module has exactly one) and the declared options. -/
structure Issuance where
  instrs : List Instr
  opts : AsmOptions
deriving DecidableEq

/-- The two source-register operand fields (rs1, rs2) of an instruction.  For
the raw `.insn r` form these are the rs1/rs2 fields as written; the raw
`.insn i` form has a single source register and no rs2 field, reported as
`x0`.  Modelled from the spec for the mnemonic form: the assembler binds the
`sfence.vma` mnemonic's operand slots to rs1 and rs2 and encodes the
hardwired-zero register `x0` in every elided slot, so the bare `sfence.vma`
assembles with both register fields zero. -/
def Instr.srcRegs : Instr → RegOperand × RegOperand
  | .insnI _ _ _ rs1 _ => (rs1, .x0)
  | .insnR _ _ _ _ rs1 rs2 => (rs1, rs2)
  | .mnem _ ops => (ops.getD 0 .x0, ops.getD 1 .x0)

/-- The source-register operand fields of each instruction of an issuance. -/
def Issuance.srcRegs (iss : Issuance) : List (RegOperand × RegOperand) :=
  iss.instrs.map Instr.srcRegs

/-- `pause`: `asm!(".insn i 0x0F, 0, x0, x0, 0x010", options(nomem, nostack))`. -/
def pause : Issuance :=
  ⟨[.insnI 0x0F 0 .x0 .x0 0x010], ⟨true, true, false⟩⟩

/-- `nop`: `asm!("nop", options(nomem, nostack))`. -/
def nop : Issuance :=
  ⟨[.mnem .nop []], ⟨true, true, false⟩⟩

/-- `wfi`: `asm!("wfi", options(nomem, nostack))`. -/
def wfi : Issuance :=
  ⟨[.mnem .wfi []], ⟨true, true, false⟩⟩

/-- `fence_i`: `asm!("fence.i", options(nostack))`. -/
def fence_i : Issuance :=
  ⟨[.mnem .fence_i []], ⟨false, true, false⟩⟩

/-- `sfence_vma(vaddr, asid)`: `asm!("sfence.vma {}, {}", in(reg) vaddr,
in(reg) asid, options(nostack))`. -/
def sfence_vma (vaddr asid : Nat) : Issuance :=
  ⟨[.mnem .sfence_vma [.inReg vaddr, .inReg asid]], ⟨false, true, false⟩⟩

/-- `sfence_vma_vaddr(vaddr)`: `asm!("sfence.vma {}, x0", in(reg) vaddr,
options(nostack))`. -/
def sfence_vma_vaddr (vaddr : Nat) : Issuance :=
  ⟨[.mnem .sfence_vma [.inReg vaddr, .x0]], ⟨false, true, false⟩⟩

/-- `sfence_vma_asid(asid)`: `asm!("sfence.vma x0, {}", in(reg) asid,
options(nostack))`. -/
def sfence_vma_asid (asid : Nat) : Issuance :=
  ⟨[.mnem .sfence_vma [.x0, .inReg asid]], ⟨false, true, false⟩⟩

/-- `sfence_vma_all()`: `asm!("sfence.vma", options(nostack))`. -/
def sfence_vma_all : Issuance :=
  ⟨[.mnem .sfence_vma []], ⟨false, true, false⟩⟩

/-- `sinval_vma(vaddr, asid)`: `asm!(".insn r 0x73, 0, 0x0B, x0, {}, {}",
in(reg) vaddr, in(reg) asid, options(nostack))`. -/
def sinval_vma (vaddr asid : Nat) : Issuance :=
  ⟨[.insnR 0x73 0 0x0B .x0 (.inReg vaddr) (.inReg asid)], ⟨false, true, false⟩⟩

/-- `sinval_vma_vaddr(vaddr)`: `asm!(".insn r 0x73, 0, 0x0B, x0, {}, x0",
in(reg) vaddr, options(nostack))`. -/
def sinval_vma_vaddr (vaddr : Nat) : Issuance :=
  ⟨[.insnR 0x73 0 0x0B .x0 (.inReg vaddr) .x0], ⟨false, true, false⟩⟩

/-- `sinval_vma_asid(asid)`: `asm!(".insn r 0x73, 0, 0x0B, x0, x0, {}",
in(reg) asid, options(nostack))`. -/
def sinval_vma_asid (asid : Nat) : Issuance :=
  ⟨[.insnR 0x73 0 0x0B .x0 .x0 (.inReg asid)], ⟨false, true, false⟩⟩

/-- `sinval_vma_all()`: `asm!(".insn r 0x73, 0, 0x0B, x0, x0, x0",
options(nostack))`. -/
def sinval_vma_all : Issuance :=
  ⟨[.insnR 0x73 0 0x0B .x0 .x0 .x0], ⟨false, true, false⟩⟩

/-- `sfence_w_inval()`: `asm!(".insn i 0x73, 0, x0, x0, 0x180",
options(nostack))`. -/
def sfence_w_inval : Issuance :=
  ⟨[.insnI 0x73 0 .x0 .x0 0x180], ⟨false, true, false⟩⟩

/-- `sfence_inval_ir()`: `asm!(".insn i 0x73, 0, x0, x0, 0x181",
options(nostack))`. -/
def sfence_inval_ir : Issuance :=
  ⟨[.insnI 0x73 0 .x0 .x0 0x181], ⟨false, true, false⟩⟩

/-- `hlv_b(src)`: `asm!(".insn i 0x73, 0x4, {}, {}, 0x600", out(reg) value,
in(reg) src, options(readonly, nostack))`. -/
def hlv_b (src : Nat) : Issuance :=
  ⟨[.insnI 0x73 0x4 .outReg (.inReg src) 0x600], ⟨false, true, true⟩⟩

/-- `hlv_bu(src)`: `asm!(".insn i 0x73, 0x4, {}, {}, 0x601", out(reg) value,
in(reg) src, options(readonly, nostack))`. -/
def hlv_bu (src : Nat) : Issuance :=
  ⟨[.insnI 0x73 0x4 .outReg (.inReg src) 0x601], ⟨false, true, true⟩⟩

/-- `hlv_h(src)`: `asm!(".insn i 0x73, 0x4, {}, {}, 0x640", out(reg) value,
in(reg) src, options(readonly, nostack))`. -/
def hlv_h (src : Nat) : Issuance :=
  ⟨[.insnI 0x73 0x4 .outReg (.inReg src) 0x640], ⟨false, true, true⟩⟩

/-- `hlv_hu(src)`: `asm!(".insn i 0x73, 0x4, {}, {}, 0x641", out(reg) value,
in(reg) src, options(readonly, nostack))`. -/
def hlv_hu (src : Nat) : Issuance :=
  ⟨[.insnI 0x73 0x4 .outReg (.inReg src) 0x641], ⟨false, true, true⟩⟩

/-- `hlvx_hu(src)`: `asm!(".insn i 0x73, 0x4, {}, {}, 0x643", out(reg) insn,
in(reg) src, options(readonly, nostack))`. -/
def hlvx_hu (src : Nat) : Issuance :=
  ⟨[.insnI 0x73 0x4 .outReg (.inReg src) 0x643], ⟨false, true, true⟩⟩

/-- `hlv_w(src)`: `asm!(".insn i 0x73, 0x4, {}, {}, 0x680", out(reg) value,
in(reg) src, options(readonly, nostack))`. -/
def hlv_w (src : Nat) : Issuance :=
  ⟨[.insnI 0x73 0x4 .outReg (.inReg src) 0x680], ⟨false, true, true⟩⟩

/-- `hlvx_wu(src)`: `asm!(".insn i 0x73, 0x4, {}, {}, 0x683", out(reg) insn,
in(reg) src, options(readonly, nostack))`. -/
def hlvx_wu (src : Nat) : Issuance :=
  ⟨[.insnI 0x73 0x4 .outReg (.inReg src) 0x683], ⟨false, true, true⟩⟩

/-- `hsv_b(dst, src)`: `asm!(".insn r 0x73, 0x4, 0x31, x0, {}, {}",
in(reg) dst, in(reg) src, options(nostack))`. -/
def hsv_b (dst : Nat) (src : Int) : Issuance :=
  ⟨[.insnR 0x73 0x4 0x31 .x0 (.inReg dst) (.inReg src)], ⟨false, true, false⟩⟩

/-- `hsv_h(dst, src)`: `asm!(".insn r 0x73, 0x4, 0x33, x0, {}, {}",
in(reg) dst, in(reg) src, options(nostack))`. -/
def hsv_h (dst : Nat) (src : Int) : Issuance :=
  ⟨[.insnR 0x73 0x4 0x33 .x0 (.inReg dst) (.inReg src)], ⟨false, true, false⟩⟩

/-- `hsv_w(dst, src)`: `asm!(".insn r 0x73, 0x4, 0x35, x0, {}, {}",
in(reg) dst, in(reg) src, options(nostack))`. -/
def hsv_w (dst : Nat) (src : Int) : Issuance :=
  ⟨[.insnR 0x73 0x4 0x35 .x0 (.inReg dst) (.inReg src)], ⟨false, true, false⟩⟩

/-- `hfence_vvma(vaddr, asid)`: `asm!(".insn r 0x73, 0, 0x11, x0, {}, {}",
in(reg) vaddr, in(reg) asid, options(nostack))`. -/
def hfence_vvma (vaddr asid : Nat) : Issuance :=
  ⟨[.insnR 0x73 0 0x11 .x0 (.inReg vaddr) (.inReg asid)], ⟨false, true, false⟩⟩

/-- `hfence_vvma_vaddr(vaddr)`: `asm!(".insn r 0x73, 0, 0x11, x0, {}, x0",
in(reg) vaddr, options(nostack))`. -/
def hfence_vvma_vaddr (vaddr : Nat) : Issuance :=
  ⟨[.insnR 0x73 0 0x11 .x0 (.inReg vaddr) .x0], ⟨false, true, false⟩⟩

/-- `hfence_vvma_asid(asid)`: `asm!(".insn r 0x73, 0, 0x11, x0, x0, {}",
in(reg) asid, options(nostack))`. -/
def hfence_vvma_asid (asid : Nat) : Issuance :=
  ⟨[.insnR 0x73 0 0x11 .x0 .x0 (.inReg asid)], ⟨false, true, false⟩⟩

/-- `hfence_vvma_all()`: `asm!(".insn r 0x73, 0, 0x11, x0, x0, x0",
options(nostack))`. -/
def hfence_vvma_all : Issuance :=
  ⟨[.insnR 0x73 0 0x11 .x0 .x0 .x0], ⟨false, true, false⟩⟩

/-- `hfence_gvma(gaddr, vmid)`: `asm!(".insn r 0x73, 0, 0x31, x0, {}, {}",
in(reg) gaddr, in(reg) vmid, options(nostack))`. -/
def hfence_gvma (gaddr vmid : Nat) : Issuance :=
  ⟨[.insnR 0x73 0 0x31 .x0 (.inReg gaddr) (.inReg vmid)], ⟨false, true, false⟩⟩

/-- `hfence_gvma_gaddr(gaddr)`: `asm!(".insn r 0x73, 0, 0x31, x0, {}, x0",
in(reg) gaddr, options(nostack))`.  The supplied `gaddr` is bound unchanged:
the function body performs no shifting. -/
def hfence_gvma_gaddr (gaddr : Nat) : Issuance :=
  ⟨[.insnR 0x73 0 0x31 .x0 (.inReg gaddr) .x0], ⟨false, true, false⟩⟩

/-- `hfence_gvma_vmid(vmid)`: `asm!(".insn r 0x73, 0, 0x31, x0, x0, {}",
in(reg) vmid, options(nostack))`. -/
def hfence_gvma_vmid (vmid : Nat) : Issuance :=
  ⟨[.insnR 0x73 0 0x31 .x0 .x0 (.inReg vmid)], ⟨false, true, false⟩⟩

/-- `hfence_gvma_all()`: `asm!(".insn r 0x73, 0, 0x31, x0, x0, x0",
options(nostack))`. -/
def hfence_gvma_all : Issuance :=
  ⟨[.insnR 0x73 0 0x31 .x0 .x0 .x0], ⟨false, true, false⟩⟩

/-- `hinval_vvma(vaddr, asid)`: `asm!(".insn r 0x73, 0, 0x13, x0, {}, {}",
in(reg) vaddr, in(reg) asid, options(nostack))`. -/
def hinval_vvma (vaddr asid : Nat) : Issuance :=
  ⟨[.insnR 0x73 0 0x13 .x0 (.inReg vaddr) (.inReg asid)], ⟨false, true, false⟩⟩

/-- `hinval_vvma_vaddr(vaddr)`: `asm!(".insn r 0x73, 0, 0x13, x0, {}, x0",
in(reg) vaddr, options(nostack))`. -/
def hinval_vvma_vaddr (vaddr : Nat) : Issuance :=
  ⟨[.insnR 0x73 0 0x13 .x0 (.inReg vaddr) .x0], ⟨false, true, false⟩⟩

/-- `hinval_vvma_asid(asid)`: `asm!(".insn r 0x73, 0, 0x13, x0, x0, {}",
in(reg) asid, options(nostack))`. -/
def hinval_vvma_asid (asid : Nat) : Issuance :=
  ⟨[.insnR 0x73 0 0x13 .x0 .x0 (.inReg asid)], ⟨false, true, false⟩⟩

/-- `hinval_vvma_all()`: `asm!(".insn r 0x73, 0, 0x13, x0, x0, x0",
options(nostack))`. -/
def hinval_vvma_all : Issuance :=
  ⟨[.insnR 0x73 0 0x13 .x0 .x0 .x0], ⟨false, true, false⟩⟩

/-- `hinval_gvma(gaddr, vmid)`: `asm!(".insn r 0x73, 0, 0x33, x0, {}, {}",
in(reg) gaddr, in(reg) vmid, options(nostack))`. -/
def hinval_gvma (gaddr vmid : Nat) : Issuance :=
  ⟨[.insnR 0x73 0 0x33 .x0 (.inReg gaddr) (.inReg vmid)], ⟨false, true, false⟩⟩

/-- `hinval_gvma_gaddr(gaddr)`: `asm!(".insn r 0x73, 0, 0x33, x0, {}, x0",
in(reg) gaddr, options(nostack))`. -/
def hinval_gvma_gaddr (gaddr : Nat) : Issuance :=
  ⟨[.insnR 0x73 0 0x33 .x0 (.inReg gaddr) .x0], ⟨false, true, false⟩⟩

/-- `hinval_gvma_vmid(vmid)`: `asm!(".insn r 0x73, 0, 0x33, x0, x0, {}",
in(reg) vmid, options(nostack))`. -/
def hinval_gvma_vmid (vmid : Nat) : Issuance :=
  ⟨[.insnR 0x73 0 0x33 .x0 .x0 (.inReg vmid)], ⟨false, true, false⟩⟩

/-- `hinval_gvma_all()`: `asm!(".insn r 0x73, 0, 0x33, x0, x0, x0",
options(nostack))`. -/
def hinval_gvma_all : Issuance :=
  ⟨[.insnR 0x73 0 0x33 .x0 .x0 .x0], ⟨false, true, false⟩⟩

/-- `frcsr()`: `asm!("frcsr {}", out(reg) value, options(nomem, nostack))`. -/
def frcsr : Issuance :=
  ⟨[.mnem .frcsr [.outReg]], ⟨true, true, false⟩⟩

/-- `fscsr(value)`: `asm!("fscsr {}, {}", out(reg) original, in(reg) value,
options(nomem, nostack))`. -/
def fscsr (value : Nat) : Issuance :=
  ⟨[.mnem .fscsr [.outReg, .inReg value]], ⟨true, true, false⟩⟩

/-- `frrm()`: `asm!("frrm {}", out(reg) value, options(nomem, nostack))`. -/
def frrm : Issuance :=
  ⟨[.mnem .frrm [.outReg]], ⟨true, true, false⟩⟩

/-- `fsrm(value)`: `asm!("fsrm {}, {}", out(reg) original, in(reg) value,
options(nomem, nostack))`. -/
def fsrm (value : Nat) : Issuance :=
  ⟨[.mnem .fsrm [.outReg, .inReg value]], ⟨true, true, false⟩⟩

/-- `frflags()`: `asm!("frflags {}", out(reg) value, options(nomem, nostack))`. -/
def frflags : Issuance :=
  ⟨[.mnem .frflags [.outReg]], ⟨true, true, false⟩⟩

/-- `fsflags(value)`: `asm!("fsflags {}, {}", out(reg) original, in(reg) value,
options(nomem, nostack))`. -/
def fsflags (value : Nat) : Issuance :=
  ⟨[.mnem .fsflags [.outReg, .inReg value]], ⟨true, true, false⟩⟩

/-- Modelled from the spec: executing an issuance that declares the no-memory
(`nomem`) or read-only (`readonly`) exclusion leaves every memory state
unchanged; only an issuance declaring neither may apply the instruction's own
write effect `w` to memory.  The Rust `asm!` option contract guaranteeing this
is outside the module's source. -/
def memAfter (iss : Issuance) (w : (Nat → Nat) → (Nat → Nat)) (mem : Nat → Nat) :
    Nat → Nat :=
  if iss.opts.nomem || iss.opts.readonly then mem else w mem

/-- Guest memory, a map from byte address to stored byte value. -/
def Mem : Type := Nat → Nat

/-- Write one byte (the low 8 bits of `b`) at address `a`. -/
def writeByte (mem : Mem) (a b : Nat) : Mem :=
  fun x => if x = a then b % 256 else mem x

/-- Modelled from the spec: the `HLV.B` instruction issued by `hlv_b` loads the
byte at the guest address and sign-extends it (`_b` sign-extends), returning
`-1` for the bit pattern `0xFF`.  The hardware executing the instruction is
outside the module's source. -/
def hlv_b_sem (mem : Mem) (src : Nat) : Int :=
  let b := mem src % 256
  if b < 128 then (b : Int) else (b : Int) - 256

/-- Modelled from the spec: the `HLV.BU` instruction issued by `hlv_bu` loads
the byte at the guest address and zero-extends it (`_bu` zero-extends). -/
def hlv_bu_sem (mem : Mem) (src : Nat) : Nat :=
  mem src % 256

/-- Modelled from the spec: the `HLV.W` instruction issued by `hlv_w` loads
the 32-bit little-endian word at the guest address and sign-extends it
(`_w` sign-extends). -/
def hlv_w_sem (mem : Mem) (src : Nat) : Int :=
  let n := mem src % 256 + mem (src + 1) % 256 * 256 +
    mem (src + 2) % 256 * 65536 + mem (src + 3) % 256 * 16777216
  if n < 2147483648 then (n : Int) else (n : Int) - 4294967296

/-- Modelled from the spec: the `HSV.W` instruction issued by `hsv_w` stores
the 32-bit two's-complement bit pattern of `value` at the guest address as
four little-endian bytes. -/
def hsv_w_sem (mem : Mem) (dst : Nat) (value : Int) : Mem :=
  let w := (value % 4294967296).toNat
  writeByte (writeByte (writeByte (writeByte mem dst w)
    (dst + 1) (w / 256)) (dst + 2) (w / 65536)) (dst + 3) (w / 16777216)

/-- Modelled from the spec: the hardware `fcsr` register read by the `frcsr`
instruction.  Per the source's field table, bits 0..=4 are the accrued
exception flags (`fflags`), bits 5..=7 the rounding mode (`frm`), bits 8..=31
reserved.  The register state is the held value; `frcsr` returns it. -/
def frcsr_sem (fcsr : Nat) : Nat := fcsr

/-- Modelled from the spec: the `fscsr` instruction returns the pre-call value
of `fcsr` and installs the new value masked to the register's defined 8-bit
field width (bits 0..=7; bits 8..=31 are reserved). -/
def fscsr_sem (value fcsr : Nat) : Nat × Nat :=
  (fcsr, value % 256)

/-- Modelled from the spec: the `frrm` instruction returns the 3-bit rounding
mode field, bits 5..=7 of `fcsr`. -/
def frrm_sem (fcsr : Nat) : Nat := fcsr / 32 % 8

/-- Modelled from the spec: the `fsrm` instruction returns the pre-call
rounding mode and writes the three least-significant bits of the input into
the rounding-mode field (bits 5..=7 of `fcsr`), leaving every other bit of
`fcsr` unchanged. -/
def fsrm_sem (value fcsr : Nat) : Nat × Nat :=
  (fcsr / 32 % 8, fcsr % 32 + value % 8 * 32 + fcsr / 256 * 256)

/-- Modelled from the spec: the `frflags` instruction returns the 5-bit
accrued exception flags field, bits 0..=4 of `fcsr`. -/
def frflags_sem (fcsr : Nat) : Nat := fcsr % 32

/-- Modelled from the spec: the `fsflags` instruction returns the pre-call
exception flags and writes the five least-significant bits of the input into
the exception-flags field (bits 0..=4 of `fcsr`), leaving every other bit of
`fcsr` unchanged. -/
def fsflags_sem (value fcsr : Nat) : Nat × Nat :=
  (fcsr % 32, value % 32 + fcsr / 32 * 32)

/-- The names of the public functions of the module, in source order. -/
inductive FnName where
  | pause
  | nop
  | wfi
  | fence_i
  | sfence_vma
  | sfence_vma_vaddr
  | sfence_vma_asid
  | sfence_vma_all
  | sinval_vma
  | sinval_vma_vaddr
  | sinval_vma_asid
  | sinval_vma_all
  | sfence_w_inval
  | sfence_inval_ir
  | hlv_b
  | hlv_bu
  | hlv_h
  | hlv_hu
  | hlvx_hu
  | hlv_w
  | hlvx_wu
  | hsv_b
  | hsv_h
  | hsv_w
  | hfence_vvma
  | hfence_vvma_vaddr
  | hfence_vvma_asid
  | hfence_vvma_all
  | hfence_gvma
  | hfence_gvma_gaddr
  | hfence_gvma_vmid
  | hfence_gvma_all
  | hinval_vvma
  | hinval_vvma_vaddr
  | hinval_vvma_asid
  | hinval_vvma_all
  | hinval_gvma
  | hinval_gvma_gaddr
  | hinval_gvma_vmid
  | hinval_gvma_all
  | frcsr
  | fscsr
  | frrm
  | fsrm
  | frflags
  | fsflags
deriving DecidableEq

/-- The complete public surface of the module, in source order. -/
def publicSurface : List FnName :=
  [.pause, .nop, .wfi, .fence_i,
   .sfence_vma, .sfence_vma_vaddr, .sfence_vma_asid, .sfence_vma_all,
   .sinval_vma, .sinval_vma_vaddr, .sinval_vma_asid, .sinval_vma_all,
   .sfence_w_inval, .sfence_inval_ir,
   .hlv_b, .hlv_bu, .hlv_h, .hlv_hu, .hlvx_hu, .hlv_w, .hlvx_wu,
   .hsv_b, .hsv_h, .hsv_w,
   .hfence_vvma, .hfence_vvma_vaddr, .hfence_vvma_asid, .hfence_vvma_all,
   .hfence_gvma, .hfence_gvma_gaddr, .hfence_gvma_vmid, .hfence_gvma_all,
   .hinval_vvma, .hinval_vvma_vaddr, .hinval_vvma_asid, .hinval_vvma_all,
   .hinval_gvma, .hinval_gvma_gaddr, .hinval_gvma_vmid, .hinval_gvma_all,
   .frcsr, .fscsr, .frrm, .fsrm, .frflags, .fsflags]

/-- Whether each public function carries the `unsafe` marker in its source
signature: every function except `pause`, `nop` and the six floating-point
CSR accessors is declared `pub unsafe fn`. -/
def needsUnsafeMarker : FnName → Bool
  | .pause | .nop | .frcsr | .fscsr | .frrm | .fsrm | .frflags | .fsflags => false
  | _ => true

/-- The guest-memory access primitives: the functions whose names match the
patterns `hlv_*`, `hlvx_*`, `hsv_*`. -/
def isGuestMemAccess : FnName → Bool
  | .hlv_b | .hlv_bu | .hlv_h | .hlv_hu | .hlv_w | .hlvx_hu | .hlvx_wu
  | .hsv_b | .hsv_h | .hsv_w => true
  | _ => false

/-- The functions callable without the `unsafe` marker, as the spec
enumerates them: `pause`, `nop` and the six floating-point CSR accessors. -/
def safeFns : List FnName :=
  [.pause, .nop, .frcsr, .fscsr, .frrm, .fsrm, .frflags, .fsflags]

/-- Claim C1: in every scoped fence/invalidation family (`sfence.vma`,
`sinval.vma`, `hfence.vvma`, `hfence.gvma`, `hinval.vvma`, `hinval.gvma`),
each narrower-scope variant encodes the hardwired-zero register `x0` in
exactly the operand positions of its elided operand(s) and binds every
non-elided operand field to the supplied operand value; the all/all variants
have both operand register fields zero. -/
theorem scoped_variants_elide_to_x0 (vaddr asid gaddr vmid : Nat) :
    (sfence_vma_vaddr vaddr).srcRegs = [(.inReg vaddr, .x0)]
    ∧ (sfence_vma_asid asid).srcRegs = [(.x0, .inReg asid)]
    ∧ sfence_vma_all.srcRegs = [(.x0, .x0)]
    ∧ (sinval_vma_vaddr vaddr).srcRegs = [(.inReg vaddr, .x0)]
    ∧ (sinval_vma_asid asid).srcRegs = [(.x0, .inReg asid)]
    ∧ sinval_vma_all.srcRegs = [(.x0, .x0)]
    ∧ (hfence_vvma_vaddr vaddr).srcRegs = [(.inReg vaddr, .x0)]
    ∧ (hfence_vvma_asid asid).srcRegs = [(.x0, .inReg asid)]
    ∧ hfence_vvma_all.srcRegs = [(.x0, .x0)]
    ∧ (hfence_gvma_gaddr gaddr).srcRegs = [(.inReg gaddr, .x0)]
    ∧ (hfence_gvma_vmid vmid).srcRegs = [(.x0, .inReg vmid)]
    ∧ hfence_gvma_all.srcRegs = [(.x0, .x0)]
    ∧ (hinval_vvma_vaddr vaddr).srcRegs = [(.inReg vaddr, .x0)]
    ∧ (hinval_vvma_asid asid).srcRegs = [(.x0, .inReg asid)]
    ∧ hinval_vvma_all.srcRegs = [(.x0, .x0)]
    ∧ (hinval_gvma_gaddr gaddr).srcRegs = [(.inReg gaddr, .x0)]
    ∧ (hinval_gvma_vmid vmid).srcRegs = [(.x0, .inReg vmid)]
    ∧ hinval_gvma_all.srcRegs = [(.x0, .x0)] :=
  ⟨rfl, rfl, rfl, rfl, rfl, rfl, rfl, rfl, rfl, rfl, rfl, rfl, rfl, rfl, rfl,
   rfl, rfl, rfl⟩

/-- Claim C2: for every 32-bit value `v` and every pre-state of the `fcsr`
register, `fscsr(v)` returns exactly the value `fcsr` held immediately before
the call and installs `v`; a subsequent `frcsr()` with no intervening write
returns `v` masked to the register's defined 8-bit width. -/
theorem fscsr_swaps_and_frcsr_reads_masked (v s : Nat)
    (hv : v < 4294967296) (hs : s < 4294967296) :
    (fscsr_sem v s).1 = s ∧ frcsr_sem (fscsr_sem v s).2 = v % 256 :=
  ⟨rfl, rfl⟩

/-- Witness for claim C2 at `v = 300`, pre-state `7`. -/
theorem fscsr_swaps_and_frcsr_reads_masked_witness :
    (fscsr_sem 300 7).1 = 7 ∧ frcsr_sem (fscsr_sem 300 7).2 = 300 % 256 :=
  fscsr_swaps_and_frcsr_reads_masked 300 7 (by decide) (by decide)

/-- Claim C3: for every `gaddr`, `hfence_gvma_gaddr(gaddr)` issues an
instruction whose VMID operand field is the hardwired-zero register and whose
address operand equals `gaddr` exactly as supplied, with no internal shifting:
at `gaddr = 0x400` the address operand is `0x400`, not `0x1000`. -/
theorem hfence_gvma_gaddr_unshifted (gaddr : Nat) :
    (hfence_gvma_gaddr gaddr).srcRegs = [(.inReg gaddr, .x0)]
    ∧ (hfence_gvma_gaddr 1024).srcRegs = [(.inReg 1024, .x0)]
    ∧ (hfence_gvma_gaddr 1024).srcRegs ≠ [(.inReg 4096, .x0)] :=
  ⟨rfl, by decide, by decide⟩

/-- Claim C4: for every 32-bit value `v` and every pre-state of `fcsr`, the
sub-field swaps modify only their targeted sub-field and preserve all other
bits: `fsrm(v)` changes only the 3-bit rounding-mode field (bits 5..=7), so a
subsequent `frflags()` equals its pre-call value and the bits above the field
are unchanged; `fsflags(v)` changes only the 5-bit exception-flags field
(bits 0..=4), so a subsequent `frrm()` equals its pre-call value and the bits
above the field are unchanged. -/
theorem fsrm_fsflags_preserve_other_fields (v s : Nat)
    (hv : v < 4294967296) (hs : s < 4294967296) :
    frflags_sem (fsrm_sem v s).2 = frflags_sem s
    ∧ (fsrm_sem v s).2 / 256 = s / 256
    ∧ frrm_sem (fsflags_sem v s).2 = frrm_sem s
    ∧ (fsflags_sem v s).2 / 32 = s / 32 := by
  simp only [frflags_sem, fsrm_sem, frrm_sem, fsflags_sem]
  refine ⟨by omega, by omega, by omega, by omega⟩

/-- Witness for claim C4 at `v = 4294967295`, pre-state `171`. -/
theorem fsrm_fsflags_preserve_other_fields_witness :
    frflags_sem (fsrm_sem 4294967295 171).2 = frflags_sem 171
    ∧ (fsrm_sem 4294967295 171).2 / 256 = 171 / 256
    ∧ frrm_sem (fsflags_sem 4294967295 171).2 = frrm_sem 171
    ∧ (fsflags_sem 4294967295 171).2 / 32 = 171 / 32 :=
  fsrm_fsflags_preserve_other_fields 4294967295 171 (by decide) (by decide)

/-- Claim C5: `hlv_b` sign-extends and `hlv_bu` zero-extends the loaded byte:
for a guest memory byte holding bit pattern `0xFF` at a given address,
`hlv_b` on that address returns `-1` while `hlv_bu` returns `255`. -/
theorem hlv_b_sign_extends_hlv_bu_zero_extends (mem : Mem) (addr : Nat)
    (h : mem addr = 255) :
    hlv_b_sem mem addr = -1 ∧ hlv_bu_sem mem addr = 255 := by
  constructor
  · simp only [hlv_b_sem, h]
    decide
  · simp only [hlv_bu_sem, h]

/-- Witness for claim C5 on a memory holding `0xFF` everywhere, at address 0. -/
theorem hlv_b_sign_extends_hlv_bu_zero_extends_witness :
    hlv_b_sem (fun _ => 255) 0 = -1 ∧ hlv_bu_sem (fun _ => 255) 0 = 255 :=
  hlv_b_sign_extends_hlv_bu_zero_extends (fun _ => 255) 0 rfl

/-- Claim C6: for every guest memory state and every address, storing the word
value `-123` via `hsv_w` at that address and then loading via `hlv_w` from
the same address yields `-123`. -/
theorem hsv_w_hlv_w_roundtrip (mem : Mem) (addr : Nat) :
    hlv_w_sem (hsv_w_sem mem addr (-123)) addr = -123 := by
  have h1 : addr ≠ addr + 1 := by omega
  have h2 : addr ≠ addr + 2 := by omega
  have h3 : addr ≠ addr + 3 := by omega
  have h12 : addr + 1 ≠ addr + 2 := by omega
  have h13 : addr + 1 ≠ addr + 3 := by omega
  have h23 : addr + 2 ≠ addr + 3 := by omega
  have e0 : hsv_w_sem mem addr (-123) addr = 133 := by
    simp only [hsv_w_sem, writeByte, h1, h2, h3, if_false, if_true, if_neg, if_pos]
    decide
  have e1 : hsv_w_sem mem addr (-123) (addr + 1) = 255 := by
    simp only [hsv_w_sem, writeByte, h12, h13, if_false, if_true, if_neg, if_pos]
    decide
  have e2 : hsv_w_sem mem addr (-123) (addr + 2) = 255 := by
    simp only [hsv_w_sem, writeByte, h23, if_false, if_true, if_neg, if_pos]
    decide
  have e3 : hsv_w_sem mem addr (-123) (addr + 3) = 255 := by
    simp only [hsv_w_sem, writeByte, if_false, if_true, if_neg, if_pos]
    decide
  simp only [hlv_w_sem, e0, e1, e2, e3]
  decide

/-- Claim C7: passing `asid = 0` to the specific-scoped primitive is a
distinct encoding from the all-address-space variant: `sfence_vma(vaddr, 0)`
binds the value 0 into a general operand register in the ASID position,
whereas `sfence_vma_vaddr(vaddr)` encodes the hardwired-zero register `x0`
there; the two calls do not issue the same instruction form. -/
theorem sfence_vma_asid0_distinct_from_vaddr_variant (vaddr : Nat) :
    (sfence_vma vaddr 0).srcRegs = [(.inReg vaddr, .inReg 0)]
    ∧ (sfence_vma_vaddr vaddr).srcRegs = [(.inReg vaddr, .x0)]
    ∧ (sfence_vma vaddr 0).instrs ≠ (sfence_vma_vaddr vaddr).instrs := by
  refine ⟨rfl, rfl, ?_⟩
  simp [sfence_vma, sfence_vma_vaddr]

/-- Counterexample to claim C8 as stated: the guest-memory access primitives
(`hlv_*`, `hlvx_*`, `hsv_*`) on the public surface do not number nine. -/
theorem guest_mem_primitives_not_nine :
    ¬ (publicSurface.filter isGuestMemAccess).length = 9 := by
  decide

/-- Claim C8 (amended: the guest-memory access primitives number ten, not
nine): `pause`, `nop` and the six floating-point CSR functions are callable
without the `unsafe` marker, while every other public function — `wfi`,
`fence_i`, every supervisor and hypervisor fence/invalidation primitive, and
all ten guest-memory access primitives — requires the `unsafe` marker. -/
theorem safe_unsafe_classification :
    (publicSurface.filter isGuestMemAccess).length = 10
    ∧ (∀ f ∈ publicSurface, needsUnsafeMarker f = false ↔ f ∈ safeFns)
    ∧ (∀ f ∈ publicSurface, isGuestMemAccess f = true → needsUnsafeMarker f = true) := by
  decide

/-- Claim C9: `pause`, `nop`, `wfi` each emit exactly one instruction and
declare the no-memory exclusion, so the memory state before and after the
call is identical. -/
theorem hints_single_instruction_no_memory_effect :
    (pause.instrs.length = 1 ∧ pause.opts.nomem = true
      ∧ ∀ w mem, memAfter pause w mem = mem)
    ∧ (nop.instrs.length = 1 ∧ nop.opts.nomem = true
      ∧ ∀ w mem, memAfter nop w mem = mem)
    ∧ (wfi.instrs.length = 1 ∧ wfi.opts.nomem = true
      ∧ ∀ w mem, memAfter wfi w mem = mem) :=
  ⟨⟨rfl, rfl, fun _ _ => rfl⟩, ⟨rfl, rfl, fun _ _ => rfl⟩,
   ⟨rfl, rfl, fun _ _ => rfl⟩⟩

/-- Claim C10: every guest-memory load primitive (`hlv_b`, `hlv_bu`, `hlv_h`,
`hlv_hu`, `hlv_w`, `hlvx_hu`, `hlvx_wu`) is issued with the read-only memory
exclusion, so executing it leaves the entire memory state unchanged; the
`hsv_*` stores do not declare it and are the only ones that may write. -/
theorem guest_loads_read_only (src dst : Nat) (v : Int) :
    ((hlv_b src).opts.readonly = true ∧ ∀ w mem, memAfter (hlv_b src) w mem = mem)
    ∧ ((hlv_bu src).opts.readonly = true ∧ ∀ w mem, memAfter (hlv_bu src) w mem = mem)
    ∧ ((hlv_h src).opts.readonly = true ∧ ∀ w mem, memAfter (hlv_h src) w mem = mem)
    ∧ ((hlv_hu src).opts.readonly = true ∧ ∀ w mem, memAfter (hlv_hu src) w mem = mem)
    ∧ ((hlv_w src).opts.readonly = true ∧ ∀ w mem, memAfter (hlv_w src) w mem = mem)
    ∧ ((hlvx_hu src).opts.readonly = true ∧ ∀ w mem, memAfter (hlvx_hu src) w mem = mem)
    ∧ ((hlvx_wu src).opts.readonly = true ∧ ∀ w mem, memAfter (hlvx_wu src) w mem = mem)
    ∧ (hsv_b dst v).opts.readonly = false
    ∧ (hsv_h dst v).opts.readonly = false
    ∧ (hsv_w dst v).opts.readonly = false :=
  ⟨⟨rfl, fun _ _ => rfl⟩, ⟨rfl, fun _ _ => rfl⟩, ⟨rfl, fun _ _ => rfl⟩,
   ⟨rfl, fun _ _ => rfl⟩, ⟨rfl, fun _ _ => rfl⟩, ⟨rfl, fun _ _ => rfl⟩,
   ⟨rfl, fun _ _ => rfl⟩, rfl, rfl, rfl⟩

end RiscvShared
